import Mathlib

/-!
Shallow embedding of `src/datadog.py`, a personal budget-tracking CLI.

Modelling conventions:
* Python `float` amounts are embedded as `Rat` (no claim concerns rounding).
* The insertion-ordered Python `dict` of `BudgetManager.categories` is an
  association list `List (String × BudgetCategory)`; assignment replaces an
  existing key in place and otherwise appends, `del` filters the key out,
  `in` is `hasKey`, indexing is `getCat`.
* Interactive `input(...)` responses are passed in as explicit `String`
  arguments; printed messages that matter to the claims are returned as
  flags or outcome constructors.
* `str.strip().lower()` is `pyNorm` (ASCII lowering, whitespace trimming),
  matching how `datadog.py` normalizes names and prompt responses.
-/

namespace Datadog

/-- ASCII uppercase test, `65 ≤ code ≤ 90` (the letters `A`\-`Z`). -/
def isUpperAscii (c : Char) : Bool :=
  decide (65 ≤ c.toNat ∧ c.toNat ≤ 90)

/-- Lowercase one character the way Python `str.lower` acts on ASCII letters. -/
def pyLowerChar (c : Char) : Char :=
  if 65 ≤ c.toNat ∧ c.toNat ≤ 90 then Char.ofNat (c.toNat + 32) else c

/-- Python `str.lower` (modelled on ASCII letters). -/
def pyLower (s : String) : String :=
  ⟨s.data.map pyLowerChar⟩

/-- Python `str.strip`: drop leading and trailing whitespace. -/
def pyStrip (s : String) : String :=
  ⟨((s.data.dropWhile Char.isWhitespace).reverse.dropWhile Char.isWhitespace).reverse⟩

/-- Python `s.strip().lower()`, the normalization `datadog.py` applies to
category names and to prompt responses. -/
def pyNorm (s : String) : String :=
  pyLower (pyStrip s)

/-- Does the string contain an ASCII uppercase letter? -/
def hasUpper (s : String) : Bool :=
  s.data.any isUpperAscii

/-- One budget bucket: `BudgetCategory.__init__` fields `name`, `limit`, `spent`. -/
structure BudgetCategory where
  name : String
  limit : Rat
  spent : Rat
deriving Repr, DecidableEq

/-- `BudgetCategory.__init__(name, limit)`: `spent` starts at `0.0`. -/
def BudgetCategory.init (name : String) (limit : Rat) : BudgetCategory :=
  { name := name, limit := limit, spent := 0 }

/-- Observable outcome of `BudgetCategory.add_expense`: the updated category,
whether the overage confirmation prompt was shown, and whether the
"Expense not added." message was printed. -/
structure ExpenseResult where
  cat : BudgetCategory
  prompted : Bool
  notAdded : Bool
deriving Repr, DecidableEq

/-- `BudgetCategory.add_expense(amount)`. `resp` is the text the user would
type at the overage confirmation prompt; it is consulted only when
`spent + amount > limit`. The code compares `resp.strip().lower()` against
the literals `yes` and `no`; any other response falls through both branches
of the `if`/`elif` and leaves `spent` unchanged without the "not added"
message. -/
def BudgetCategory.add_expense (c : BudgetCategory) (amount : Rat) (resp : String) :
    ExpenseResult :=
  if c.spent + amount > c.limit then
    let proceed := pyNorm resp
    if proceed = "yes" then ⟨{ c with spent := c.spent + amount }, true, false⟩
    else if proceed = "no" then ⟨c, true, true⟩
    else ⟨c, true, false⟩
  else ⟨{ c with spent := c.spent + amount }, false, false⟩

/-- `BudgetCategory.remaining()`: returns `limit - spent`, paired with whether
the exceeded-budget warning was printed (`spent > limit`). -/
def BudgetCategory.remaining (c : BudgetCategory) : Rat × Bool :=
  (c.limit - c.spent, decide (c.spent > c.limit))

/-- A JSON object as consumed by `BudgetCategory.from_dict`: each of the three
expected fields may be absent (`none` models a missing key, on which the
Python code raises `KeyError`). -/
structure CatDict where
  name : Option String
  limit : Option Rat
  spent : Option Rat
deriving Repr, DecidableEq

/-- `BudgetCategory.to_dict()`: all three fields present. -/
def BudgetCategory.to_dict (c : BudgetCategory) : CatDict :=
  { name := some c.name, limit := some c.limit, spent := some c.spent }

/-- `BudgetCategory.from_dict(data)`: reads `data["name"]`, `data["limit"]`,
`data["spent"]` in that order; a missing key raises `KeyError`, modelled as
`none`. -/
def BudgetCategory.from_dict (d : CatDict) : Option BudgetCategory := do
  let n ← d.name
  let l ← d.limit
  let s ← d.spent
  pure { name := n, limit := l, spent := s }

/-- The `BudgetManager.categories` dict: insertion-ordered, keyed by name. -/
abbrev Categories := List (String × BudgetCategory)

/-- Python `name in self.categories`. -/
def hasKey (m : Categories) (k : String) : Bool :=
  m.any (fun p => p.1 == k)

/-- Python `self.categories[name]`. -/
def getCat (m : Categories) (k : String) : Option BudgetCategory :=
  match m with
  | [] => none
  | p :: rest => if p.1 == k then some p.2 else getCat rest k

/-- Python `self.categories[name] = cat`: replace in place if the key exists,
otherwise append (dicts preserve insertion order). -/
def dictSet (m : Categories) (k : String) (v : BudgetCategory) : Categories :=
  if hasKey m k then m.map (fun p => if p.1 == k then (k, v) else p) else m ++ [(k, v)]

/-- Python `del self.categories[name]`: remove the key, keep the rest in order. -/
def dictDel (m : Categories) (k : String) : Categories :=
  m.filter (fun p => !(p.1 == k))

/-- The `BudgetManager` state: just its `categories` dict. -/
structure BudgetManager where
  categories : Categories
deriving Repr, DecidableEq

/-- Outcome of `BudgetManager.add_category`, one constructor per printed path:
`duplicate` is the "already exists" message (also produced by a blank
normalized name), `invalidPercent`/`invalidIncome` are the two
invalid-input messages of the derived-limit mode, `invalidLimit` is the
negative-limit rejection, `added` carries the stored limit. -/
inductive AddOutcome where
  | duplicate
  | invalidPercent
  | invalidIncome
  | invalidLimit
  | added (limit : Rat)
deriving Repr, DecidableEq

/-- The spec's `InvalidInput` error kind covers both invalid-percentage and
invalid-income rejections of the derived-limit mode. -/
def AddOutcome.isInvalidInput : AddOutcome → Bool
  | .invalidPercent => true
  | .invalidIncome => true
  | _ => false

/-- The interactive inputs `BudgetManager.add_category` may read: the response
to the "Would you like help ...?" prompt, and the already-parsed income and
percentage (`none` models a `float(...)` that raised `ValueError`). -/
structure AddInputs where
  helpResp : String
  income : Option Rat
  percent : Option Rat
deriving Repr, DecidableEq

/-- `BudgetManager.add_category(name, limit)`. Normalizes `name` with
`strip().lower()`; rejects an existing or blank normalized name; then either
derives the limit from income and percentage (when the help response
normalizes to `yes`; percentage is parsed and range-checked before income)
or uses the supplied `limit` after a non-negativity check. -/
def BudgetManager.add_category (m : BudgetManager) (name0 : String) (limit : Rat)
    (inp : AddInputs) : BudgetManager × AddOutcome :=
  let name := pyNorm name0
  if hasKey m.categories name || name == "" then (m, .duplicate)
  else if pyNorm inp.helpResp = "yes" then
    match inp.percent with
    | none => (m, .invalidPercent)
    | some percentage =>
      if percentage < 0 ∨ percentage > 100 then (m, .invalidPercent)
      else
        match inp.income with
        | none => (m, .invalidIncome)
        | some income =>
          if income < 0 then (m, .invalidIncome)
          else
            (⟨dictSet m.categories name (BudgetCategory.init name (income * (percentage / 100)))⟩,
             .added (income * (percentage / 100)))
  else if limit < 0 then (m, .invalidLimit)
  else (⟨dictSet m.categories name (BudgetCategory.init name limit)⟩, .added limit)

/-- `BudgetManager.add_expense(name, amount)`: looks `name` up verbatim (no
normalization); `none` in the second component is the "No such category"
path. `resp` is relayed to the category's overage prompt. -/
def BudgetManager.add_expense (m : BudgetManager) (name : String) (amount : Rat)
    (resp : String) : BudgetManager × Option ExpenseResult :=
  match getCat m.categories name with
  | some c =>
    let r := c.add_expense amount resp
    (⟨dictSet m.categories name r.cat⟩, some r)
  | none => (m, none)

/-- Outcome of `BudgetManager.remove_category`. -/
inductive RemoveOutcome where
  | notFound
  | cancelled
  | removed
deriving Repr, DecidableEq

/-- `BudgetManager.remove_category(name)`: looks `name` up verbatim; when
present, deletes only if the confirmation response normalizes to `yes`. -/
def BudgetManager.remove_category (m : BudgetManager) (name : String) (conf : String) :
    BudgetManager × RemoveOutcome :=
  if hasKey m.categories name then
    if pyNorm conf ≠ "yes" then (m, .cancelled)
    else (⟨dictDel m.categories name⟩, .removed)
  else (m, .notFound)

/-- One printed row of `BudgetManager.show_summary`. -/
structure SummaryRow where
  name : String
  spent : Rat
  limit : Rat
  remaining : Rat
  warned : Bool
deriving Repr, DecidableEq

/-- `BudgetManager.show_summary()`: one row per category in insertion order
(remaining and the warning via `BudgetCategory.remaining`), then the total.
In the source, `total_spent` is assigned only inside the `for` body, so with
no categories the final `print` raises `UnboundLocalError`; the total is
therefore `none` exactly when `categories` is empty. -/
def BudgetManager.show_summary (m : BudgetManager) : List SummaryRow × Option Rat :=
  (m.categories.map (fun p =>
      { name := p.2.name, spent := p.2.spent, limit := p.2.limit,
        remaining := p.2.remaining.1, warned := p.2.remaining.2 }),
   if m.categories.isEmpty then none
   else some ((m.categories.map (fun p => p.2.spent)).sum))

/-- `BudgetManager.save_data()`: the JSON object written to `budget_data.json`,
mapping each stored key to `to_dict` of its category, in insertion order. -/
def BudgetManager.save_data (m : BudgetManager) : List (String × CatDict) :=
  m.categories.map (fun p => (p.1, p.2.to_dict))

/-- The dict comprehension in `BudgetManager.load_data`: rebuild each category
with `from_dict` in file order; a `KeyError` from any record aborts the load. -/
def loadEntries : List (String × CatDict) → Option Categories
  | [] => some []
  | (k, d) :: rest => do
    let c ← BudgetCategory.from_dict d
    let r ← loadEntries rest
    pure ((k, c) :: r)

/-- `BudgetManager.load_data()` applied to an existing data file with the given
contents: replaces `categories` with the rebuilt mapping. -/
def BudgetManager.load_data (store : List (String × CatDict)) : Option BudgetManager :=
  (loadEntries store).map (fun cs => ⟨cs⟩)

/-! Supporting lemmas shared by several claims. -/

/-- `Char.ofNat` of a number below the surrogate range keeps its code point. -/
theorem toNat_ofNat_valid (n : Nat) (h : n < 55296) : (Char.ofNat n).toNat = n := by
  unfold Char.ofNat
  rw [dif_pos (Or.inl h)]
  rfl

/-- Lowering a character never yields an ASCII uppercase letter. -/
theorem isUpperAscii_pyLowerChar (c : Char) : isUpperAscii (pyLowerChar c) = false := by
  unfold pyLowerChar
  split
  · rename_i h
    have h2 : c.toNat + 32 < 55296 := by omega
    simp [isUpperAscii, toNat_ofNat_valid _ h2]
    omega
  · rename_i h
    simp [isUpperAscii]
    omega

/-- A lowered string contains no ASCII uppercase letter. -/
theorem hasUpper_pyLower (s : String) : hasUpper (pyLower s) = false := by
  show (s.data.map pyLowerChar).any isUpperAscii = false
  induction s.data with
  | nil => rfl
  | cons c cs ih => simp [List.any_cons, isUpperAscii_pyLowerChar, ih]

/-- A normalized name contains no ASCII uppercase letter. -/
theorem hasUpper_pyNorm (s : String) : hasUpper (pyNorm s) = false :=
  hasUpper_pyLower (pyStrip s)

/-- Deserializing a serialized category restores it exactly. -/
theorem from_dict_to_dict (c : BudgetCategory) :
    BudgetCategory.from_dict c.to_dict = some c := rfl

/-- Rebuilding saved entries restores the association list exactly. -/
theorem loadEntries_map_to_dict (l : Categories) :
    loadEntries (l.map (fun p => (p.1, p.2.to_dict))) = some l := by
  induction l with
  | nil => rfl
  | cons p rest ih => simp [loadEntries, from_dict_to_dict, ih]

/-- C1: saving a ledger and loading the result into a fresh ledger reproduces
the same `categories` mapping: the same keys in the same order, each paired
with a category of identical `name`, `limit` and `spent`. -/
theorem c1_save_load_roundtrip (m : BudgetManager) :
    BudgetManager.load_data m.save_data = some m := by
  simp [BudgetManager.load_data, BudgetManager.save_data, loadEntries_map_to_dict]

/-- C2: on a ledger with no categories, `show_summary` produces no aggregate
total: in the source, `total_spent` is assigned only inside the loop over
categories, so the final `print` raises `UnboundLocalError` instead of
reporting a total of `0`. -/
theorem c2_show_summary_empty_no_total :
    (BudgetManager.show_summary ⟨[]⟩).2 = none := rfl

/-- C3: when `spent + amount` does not exceed `limit`, `add_expense` adds
exactly `amount` to `spent` and shows no confirmation prompt, whatever
response text would have been supplied. -/
theorem c3_add_expense_within_limit (c : BudgetCategory) (amount : Rat) (resp : String)
    (h : c.spent + amount ≤ c.limit) :
    (c.add_expense amount resp).cat.spent = c.spent + amount ∧
    (c.add_expense amount resp).prompted = false := by
  unfold BudgetCategory.add_expense
  rw [if_neg (not_lt.mpr h)]
  exact ⟨rfl, rfl⟩

/-- Witness for C3 at `spent = 0`, `limit = 100`, `amount = 50`. -/
theorem c3_witness :
    (BudgetCategory.init "food" 100).spent + 50 ≤ (BudgetCategory.init "food" 100).limit ∧
    (((BudgetCategory.init "food" 100).add_expense 50 "x").cat.spent
        = (BudgetCategory.init "food" 100).spent + 50 ∧
      ((BudgetCategory.init "food" 100).add_expense 50 "x").prompted = false) :=
  ⟨by norm_num [BudgetCategory.init],
   c3_add_expense_within_limit (BudgetCategory.init "food" 100) 50 "x"
     (by norm_num [BudgetCategory.init])⟩

/-- C5: `from_dict` of `to_dict` restores the category's `name`, `limit` and
`spent` exactly, for every category. -/
theorem c5_serialize_roundtrip (c : BudgetCategory) :
    BudgetCategory.from_dict c.to_dict = some c :=
  from_dict_to_dict c

/-- C6: a record missing any of the fields `name`, `limit`, `spent` makes
`from_dict` fail (the Python code raises `KeyError`) instead of producing a
category. -/
theorem c6_from_dict_missing_field (d : CatDict)
    (h : d.name = none ∨ d.limit = none ∨ d.spent = none) :
    BudgetCategory.from_dict d = none := by
  obtain ⟨n, l, s⟩ := d
  rcases h with h | h | h
  · simp only at h
    subst h
    rfl
  · simp only at h
    subst h
    cases n <;> rfl
  · simp only at h
    subst h
    cases n <;> cases l <;> rfl

/-- Witness for C6 on a record missing its `name` field. -/
theorem c6_witness :
    ((⟨none, some 1, some 2⟩ : CatDict).name = none ∨
      (⟨none, some 1, some 2⟩ : CatDict).limit = none ∨
      (⟨none, some 1, some 2⟩ : CatDict).spent = none) ∧
    BudgetCategory.from_dict ⟨none, some 1, some 2⟩ = none :=
  ⟨Or.inl rfl, c6_from_dict_missing_field ⟨none, some 1, some 2⟩ (Or.inl rfl)⟩

/-- C4: when `spent + amount` exceeds `limit`, `add_expense` shows the
confirmation prompt; a response normalizing to `no` leaves the category
unchanged and prints the not-added message, one normalizing to `yes`
commits `spent + amount`. -/
theorem c4_add_expense_overage (c : BudgetCategory) (amount : Rat) (resp : String)
    (h : c.spent + amount > c.limit) :
    (c.add_expense amount resp).prompted = true ∧
    (pyNorm resp = "no" →
      (c.add_expense amount resp).cat = c ∧ (c.add_expense amount resp).notAdded = true) ∧
    (pyNorm resp = "yes" →
      (c.add_expense amount resp).cat.spent = c.spent + amount) := by
  unfold BudgetCategory.add_expense
  rw [if_pos h]
  by_cases hy : pyNorm resp = "yes"
  · refine ⟨by simp [hy], ?_, by simp [hy]⟩
    intro hn
    rw [hy] at hn
    exact absurd hn (by decide)
  · by_cases hn : pyNorm resp = "no"
    · exact ⟨by simp [hy, hn], by simp [hy, hn], fun h2 => absurd h2 hy⟩
    · exact ⟨by simp [hy, hn], fun h2 => absurd h2 hn, fun h2 => absurd h2 hy⟩

/-- Witness for C4 at `spent = 0`, `limit = 100`, `amount = 150`, response
`no`. -/
theorem c4_witness :
    (BudgetCategory.init "food" 100).spent + 150 > (BudgetCategory.init "food" 100).limit ∧
    (((BudgetCategory.init "food" 100).add_expense 150 "no").prompted = true ∧
      (pyNorm "no" = "no" →
        ((BudgetCategory.init "food" 100).add_expense 150 "no").cat = BudgetCategory.init "food" 100 ∧
        ((BudgetCategory.init "food" 100).add_expense 150 "no").notAdded = true) ∧
      (pyNorm "no" = "yes" →
        ((BudgetCategory.init "food" 100).add_expense 150 "no").cat.spent
          = (BudgetCategory.init "food" 100).spent + 150)) :=
  ⟨by norm_num [BudgetCategory.init],
   c4_add_expense_overage (BudgetCategory.init "food" 100) 150 "no"
     (by norm_num [BudgetCategory.init])⟩

/-- C9: on an overage, a response normalizing to neither `yes` nor `no` falls
through both branches of the `if`/`elif` and never commits the expense:
`spent` is unchanged. -/
theorem c9_add_expense_ambiguous_response (c : BudgetCategory) (amount : Rat) (resp : String)
    (hover : c.spent + amount > c.limit)
    (hyes : pyNorm resp ≠ "yes") (hno : pyNorm resp ≠ "no") :
    (c.add_expense amount resp).cat.spent = c.spent := by
  unfold BudgetCategory.add_expense
  rw [if_pos hover]
  simp only [if_neg hyes, if_neg hno]

/-- Witness for C9 at `spent = 0`, `limit = 100`, `amount = 150`, response
`maybe`. -/
theorem c9_witness :
    (BudgetCategory.init "food" 100).spent + 150 > (BudgetCategory.init "food" 100).limit ∧
    pyNorm "maybe" ≠ "yes" ∧ pyNorm "maybe" ≠ "no" ∧
    ((BudgetCategory.init "food" 100).add_expense 150 "maybe").cat.spent
      = (BudgetCategory.init "food" 100).spent :=
  ⟨by norm_num [BudgetCategory.init], by decide, by decide,
   c9_add_expense_ambiguous_response (BudgetCategory.init "food" 100) 150 "maybe"
     (by norm_num [BudgetCategory.init]) (by decide) (by decide)⟩

/-- C7: when the trimmed, lowercased name is blank or already a key,
`add_category` reports the duplicate and returns the manager unchanged,
with no category created or modified. -/
theorem c7_add_category_duplicate (m : BudgetManager) (name0 : String) (limit : Rat)
    (inp : AddInputs)
    (h : pyNorm name0 = "" ∨ hasKey m.categories (pyNorm name0) = true) :
    m.add_category name0 limit inp = (m, AddOutcome.duplicate) := by
  unfold BudgetManager.add_category
  rcases h with h | h <;> simp [h]

/-- Witness for C7: a name of pure whitespace normalizes to the blank string. -/
theorem c7_witness :
    (pyNorm "  " = "" ∨ hasKey (⟨[]⟩ : BudgetManager).categories (pyNorm "  ") = true) ∧
    BudgetManager.add_category ⟨[]⟩ "  " 1 ⟨"no", none, none⟩ = (⟨[]⟩, AddOutcome.duplicate) :=
  ⟨Or.inl (by decide),
   c7_add_category_duplicate ⟨[]⟩ "  " 1 ⟨"no", none, none⟩ (Or.inl (by decide))⟩

/-- C8: in derived-limit mode (help response normalizing to `yes`, name fresh
and non-blank), parsed income `i ≥ 0` and percentage `p` within `[0, 100]`
store a new category with limit `i * (p / 100)`; a negative income or a
percentage outside `[0, 100]` is rejected as invalid input and the mapping
is unchanged. -/
theorem c8_add_category_derived_limit (m : BudgetManager) (name0 : String) (limit : Rat)
    (helpResp : String) (income percent : Option Rat)
    (hdup : hasKey m.categories (pyNorm name0) = false)
    (hblank : pyNorm name0 ≠ "")
    (hhelp : pyNorm helpResp = "yes") :
    (∀ i p, income = some i → percent = some p → 0 ≤ i → 0 ≤ p → p ≤ 100 →
      m.add_category name0 limit ⟨helpResp, income, percent⟩ =
        (⟨dictSet m.categories (pyNorm name0)
            (BudgetCategory.init (pyNorm name0) (i * (p / 100)))⟩,
         AddOutcome.added (i * (p / 100)))) ∧
    (∀ i p, income = some i → percent = some p → (i < 0 ∨ p < 0 ∨ 100 < p) →
      (m.add_category name0 limit ⟨helpResp, income, percent⟩).1 = m ∧
      ((m.add_category name0 limit ⟨helpResp, income, percent⟩).2).isInvalidInput = true) := by
  constructor
  · intro i p hi hp hi0 hp0 hp100
    subst hi hp
    unfold BudgetManager.add_category
    simp [hdup, hblank, hhelp, not_lt.mpr hi0, not_lt.mpr hp0, not_lt.mpr hp100]
  · intro i p hi hp hbad
    subst hi hp
    unfold BudgetManager.add_category
    rcases hbad with hbad | hbad | hbad
    · by_cases hp0 : p < 0
      · simp [hdup, hblank, hhelp, hp0, AddOutcome.isInvalidInput]
      · by_cases hp100 : p > 100
        · simp [hdup, hblank, hhelp, hp100, AddOutcome.isInvalidInput]
        · simp [hdup, hblank, hhelp, hp0, hp100, hbad, AddOutcome.isInvalidInput]
    · simp [hdup, hblank, hhelp, hbad, AddOutcome.isInvalidInput]
    · simp [hdup, hblank, hhelp, hbad, not_lt.mpr (le_of_lt hbad), AddOutcome.isInvalidInput]

/-- Witness for C8: income `50` at `20` percent yields a `food` category with
limit `10`; income `-1` is rejected with the mapping unchanged. -/
theorem c8_witness :
    hasKey (⟨[]⟩ : BudgetManager).categories (pyNorm "Food") = false ∧
    pyNorm "Food" ≠ "" ∧ pyNorm "yes" = "yes" ∧
    BudgetManager.add_category ⟨[]⟩ "Food" 0 ⟨"yes", some 50, some 20⟩ =
      (⟨dictSet (⟨[]⟩ : BudgetManager).categories (pyNorm "Food")
          (BudgetCategory.init (pyNorm "Food") (50 * (20 / 100)))⟩,
       AddOutcome.added (50 * (20 / 100))) ∧
    (BudgetManager.add_category ⟨[]⟩ "Food" 0 ⟨"yes", some (-1), some 20⟩).1 = ⟨[]⟩ ∧
    ((BudgetManager.add_category ⟨[]⟩ "Food" 0 ⟨"yes", some (-1), some 20⟩).2).isInvalidInput
      = true :=
  ⟨by decide, by decide, by decide,
   (c8_add_category_derived_limit ⟨[]⟩ "Food" 0 "yes" (some 50) (some 20)
       (by decide) (by decide) (by decide)).1 50 20 rfl rfl
     (by norm_num) (by norm_num) (by norm_num),
   (c8_add_category_derived_limit ⟨[]⟩ "Food" 0 "yes" (some (-1)) (some 20)
       (by decide) (by decide) (by decide)).2 (-1) 20 rfl rfl (Or.inl (by norm_num))⟩

/-- Assigning a fresh key appends the entry, keeping insertion order. -/
theorem dictSet_fresh (m : Categories) (k : String) (v : BudgetCategory)
    (h : hasKey m k = false) : dictSet m k v = m ++ [(k, v)] := by
  simp [dictSet, h]

/-- Two strings cannot be equal when only one contains an uppercase letter. -/
theorem ne_of_hasUpper {a b : String} (ha : hasUpper a = true) (hb : hasUpper b = false) :
    b ≠ a := by
  intro h
  subst h
  rw [ha] at hb
  cases hb

/-- A key absent from every entry is not found by `hasKey`. -/
theorem hasKey_eq_false (m : Categories) (k : String) (h : ∀ p ∈ m, p.1 ≠ k) :
    hasKey m k = false := by
  induction m with
  | nil => rfl
  | cons p rest ih =>
    simp only [hasKey, List.any_cons, Bool.or_eq_false_iff]
    constructor
    · exact beq_eq_false_iff_ne.mpr (h p (List.mem_cons_self p rest))
    · exact ih (fun q hq => h q (List.mem_cons_of_mem p hq))

/-- A key absent from every entry makes indexing fail. -/
theorem getCat_eq_none (m : Categories) (k : String) (h : ∀ p ∈ m, p.1 ≠ k) :
    getCat m k = none := by
  induction m with
  | nil => rfl
  | cons p rest ih =>
    simp only [getCat]
    rw [if_neg]
    · exact ih (fun q hq => h q (List.mem_cons_of_mem p hq))
    · simp only [beq_iff_eq]
      exact h p (List.mem_cons_self p rest)

/-- C10: `add_category` stores under the trimmed, lowercased name, while
`add_expense` and `remove_category` look the supplied name up verbatim; so
on a ledger whose keys are all uppercase-free, after creating a category
with a name containing an uppercase letter (direct-limit mode, valid
inputs), the normalized key is present, yet `add_expense` and
`remove_category` with the original spelling both fail with the
no-such-category outcome and change nothing. -/
theorem c10_lookup_is_case_sensitive (m : BudgetManager) (name : String)
    (limit amount : Rat) (inp : AddInputs) (resp conf : String)
    (hkeys : ∀ p ∈ m.categories, hasUpper p.1 = false)
    (hupper : hasUpper name = true)
    (hdup : hasKey m.categories (pyNorm name) = false)
    (hblank : pyNorm name ≠ "")
    (hhelp : pyNorm inp.helpResp ≠ "yes")
    (hlim : ¬limit < 0) :
    hasKey ((m.add_category name limit inp).1).categories (pyNorm name) = true ∧
    ((m.add_category name limit inp).1).add_expense name amount resp
      = ((m.add_category name limit inp).1, none) ∧
    ((m.add_category name limit inp).1).remove_category name conf
      = ((m.add_category name limit inp).1, RemoveOutcome.notFound) := by
  have hstep : m.add_category name limit inp =
      (⟨m.categories ++ [(pyNorm name, BudgetCategory.init (pyNorm name) limit)]⟩,
       AddOutcome.added limit) := by
    unfold BudgetManager.add_category
    simp [hdup, hblank, hhelp, hlim, dictSet_fresh _ _ _ hdup]
  have hmem : ∀ p ∈ m.categories ++ [(pyNorm name, BudgetCategory.init (pyNorm name) limit)],
      p.1 ≠ name := by
    intro p hp
    rcases List.mem_append.mp hp with hp | hp
    · exact ne_of_hasUpper hupper (hkeys p hp)
    · rcases List.mem_singleton.mp hp with rfl
      exact ne_of_hasUpper hupper (hasUpper_pyNorm name)
  have hnokey : hasKey (m.categories ++
      [(pyNorm name, BudgetCategory.init (pyNorm name) limit)]) name = false :=
    hasKey_eq_false _ _ hmem
  have hnoget : getCat (m.categories ++
      [(pyNorm name, BudgetCategory.init (pyNorm name) limit)]) name = none :=
    getCat_eq_none _ _ hmem
  rw [hstep]
  refine ⟨?_, ?_, ?_⟩
  · simp [hasKey, List.any_append]
  · simp [BudgetManager.add_expense, hnoget]
  · simp [BudgetManager.remove_category, hnokey]

/-- Witness for C10: create `Food` in an empty ledger, then address it as
`Food` again. -/
theorem c10_witness :
    hasUpper "Food" = true ∧
    hasKey ((BudgetManager.add_category ⟨[]⟩ "Food" 5 ⟨"no", none, none⟩).1).categories
        (pyNorm "Food") = true ∧
    ((BudgetManager.add_category ⟨[]⟩ "Food" 5 ⟨"no", none, none⟩).1).add_expense "Food" 3 "x"
      = ((BudgetManager.add_category ⟨[]⟩ "Food" 5 ⟨"no", none, none⟩).1, none) ∧
    ((BudgetManager.add_category ⟨[]⟩ "Food" 5 ⟨"no", none, none⟩).1).remove_category "Food" "yes"
      = ((BudgetManager.add_category ⟨[]⟩ "Food" 5 ⟨"no", none, none⟩).1,
         RemoveOutcome.notFound) := by
  have h := c10_lookup_is_case_sensitive ⟨[]⟩ "Food" 5 3 ⟨"no", none, none⟩ "x" "yes"
    (by intro p hp; cases hp) (by decide) (by decide) (by decide) (by decide) (by norm_num)
  exact ⟨by decide, h.1, h.2.1, h.2.2⟩

end Datadog
